import Mathlib

/-!
Shallow embedding of the tutorial notebook
`docs/tutorials/advanced/terra/pulse/gathering_system_information.ipynb`.

Numeric values reported by the backend (times, frequencies, errors) are
modelled as rationals; Python string formatting is modelled structurally
(a formatted line is the list of its literal and interpolated pieces).
Fallible external calls are modelled as `Except`-valued functions.
-/

/-- The static backend configuration object, with exactly the fields the
notebook reads: `backend_name`, `backend_version`, `n_qubits`, `open_pulse`,
`basis_gates`, `dt`, `dtm`, `meas_levels`, `meas_map`. -/
structure Config where
  backend_name : String
  backend_version : String
  n_qubits : Nat
  open_pulse : Bool
  basis_gates : List String
  dt : ℚ
  dtm : ℚ
  meas_levels : List Nat
  meas_map : List (List Nat)
deriving DecidableEq

/-- A pulse channel, as returned by the configuration channel accessors. -/
inductive Channel
  | drive (index : Nat)
  | measure (index : Nat)
  | acquire (index : Nat)
deriving DecidableEq

/-- `config.drive(i)`: returns the drive channel of qubit `i`. -/
def Config.drive (_ : Config) (i : Nat) : Channel := Channel.drive i

/-- `config.measure(i)`: returns the measure channel of qubit `i`. -/
def Config.measure (_ : Config) (i : Nat) : Channel := Channel.measure i

/-- `config.acquire(i)`: returns the acquire channel of qubit `i`. -/
def Config.acquire (_ : Config) (i : Nat) : Channel := Channel.acquire i

/-- The measured-properties object, with the accessors `describe_qubit`
calls: `t1`, `t2`, `gate_error`, `gate_length`, `frequency`. -/
structure Properties where
  t1 : Nat → ℚ
  t2 : Nat → ℚ
  gate_error : String → Nat → ℚ
  gate_length : String → Nat → ℚ
  frequency : Nat → ℚ

/-- A label for one properties query, used to record which external
accessors a cell invokes. -/
inductive PropQuery
  | t1 (qubit : Nat)
  | t2 (qubit : Nat)
  | gate_error (gate : String) (qubit : Nat)
  | gate_length (gate : String) (qubit : Nat)
  | frequency (qubit : Nat)
deriving DecidableEq

/-- The values interpolated into the string printed by `describe_qubit`,
in the order of the format call. -/
structure QubitDescription where
  qubit : Nat
  t1_us : ℚ
  t2_us : ℚ
  u2_gate_error : ℚ
  u2_gate_duration_ns : ℚ
  resonant_frequency_GHz : ℚ
deriving DecidableEq

/-- `describe_qubit(qubit, properties)` from the notebook: queries
`properties.t1`, `properties.t2`, `properties.gate_error('u2', ·)`,
`properties.gate_length('u2', ·)` and `properties.frequency`, scales by the
conversion factors `us = 1e6`, `ns = 1e9`, `GHz = 1e-9`, and prints the
description.  The second component records the properties queries the cell
performs, in evaluation order. -/
def describe_qubit (qubit : Nat) (properties : Properties) :
    QubitDescription × List PropQuery :=
  let us : ℚ := 1000000
  let ns : ℚ := 1000000000
  let GHz : ℚ := 1 / 1000000000
  (⟨qubit,
    properties.t1 qubit * us,
    properties.t2 qubit * us,
    properties.gate_error "u2" qubit,
    properties.gate_length "u2" qubit * ns,
    properties.frequency qubit * GHz⟩,
   [PropQuery.t1 qubit, PropQuery.t2 qubit,
    PropQuery.gate_error "u2" qubit,
    PropQuery.gate_length "u2" qubit,
    PropQuery.frequency qubit])

/-- An error raised by an external SDK call (e.g. Python's `IndexError`
from indexing an empty list, or any SDK-defined failure). -/
inductive Err
  | indexError
  | sdk (code : Nat)
deriving DecidableEq

/-- The properties object with fallible accessors: each query either
returns a value or raises an SDK-defined error. -/
structure PropertiesE where
  t1 : Nat → Except Err ℚ
  t2 : Nat → Except Err ℚ
  gate_error : String → Nat → Except Err ℚ
  gate_length : String → Nat → Except Err ℚ
  frequency : Nat → Except Err ℚ

/-- `describe_qubit` over fallible accessors: the calls are made in the
evaluation order of the format arguments, and the cell body adds no
handler, so the cell is the plain monadic sequence of the five calls. -/
def describe_qubitE (qubit : Nat) (properties : PropertiesE) :
    Except Err QubitDescription :=
  (properties.t1 qubit).bind fun t1v =>
  (properties.t2 qubit).bind fun t2v =>
  (properties.gate_error "u2" qubit).bind fun errv =>
  (properties.gate_length "u2" qubit).bind fun lenv =>
  (properties.frequency qubit).bind fun freqv =>
  Except.ok ⟨qubit, t1v * 1000000, t2v * 1000000, errv,
             lenv * 1000000000, freqv * (1 / 1000000000)⟩

/-- The error of the first failing call in a sequence of external call
results, if any. -/
def firstError : List (Except Err ℚ) → Option Err
  | [] => none
  | Except.error e :: _ => some e
  | Except.ok _ :: rest => firstError rest

/-- A pulse schedule.  Its structure lives in the external SDK; the
notebook only stores and retrieves whole schedules, so it is opaque here. -/
structure Schedule where
  sid : Nat
deriving DecidableEq

/-- Modelled from the spec: the SDK's `InstructionScheduleMap` is
repository code not included under `src/`; the spec describes it as "an
instruction-to-pulse-schedule mapping with lookup (`get`), existence-check
(`has`), and insertion (`add`) operations", a basic mapping from a circuit
operation's name and qubits to a pulse schedule. -/
structure InstructionScheduleMap where
  entries : List ((String × List Nat) × Schedule)
deriving DecidableEq

/-- Modelled from the spec: lookup of the schedule stored for an
instruction name on a qubit list. -/
def InstructionScheduleMap.get (m : InstructionScheduleMap)
    (name : String) (qubits : List Nat) : Option Schedule :=
  (m.entries.find? (fun e => e.1 == (name, qubits))).map (fun e => e.2)

/-- Modelled from the spec: existence check for an instruction definition. -/
def InstructionScheduleMap.has (m : InstructionScheduleMap)
    (name : String) (qubits : List Nat) : Bool :=
  (m.get name qubits).isSome

/-- Modelled from the spec: insertion of a schedule for an instruction
name on a qubit list. -/
def InstructionScheduleMap.add (m : InstructionScheduleMap)
    (name : String) (qubits : List Nat) (schedule : Schedule) :
    InstructionScheduleMap :=
  ⟨((name, qubits), schedule) :: m.entries⟩

/-- The pulse-defaults object, with the members the notebook reads:
`qubit_freq_est`, `meas_freq_est`, `instruction_schedule_map`. -/
structure Defaults where
  qubit_freq_est : List ℚ
  meas_freq_est : List ℚ
  instruction_schedule_map : InstructionScheduleMap
deriving DecidableEq

/-- Python list indexing `lst[i]`: returns the element, or raises
`IndexError` when the index is out of range. -/
def indexE (l : List ℚ) (i : Nat) : Except Err ℚ :=
  match l.get? i with
  | some v => Except.ok v
  | none => Except.error Err.indexError

/-- The drive/measure-frequency cell: reads
`defaults.qubit_freq_est[0]` and `defaults.meas_freq_est[0]` with no
guard, and prints both values multiplied by `GHz = 1e-9`. -/
def freqCellE (defaults : Defaults) : Except Err (ℚ × ℚ) :=
  (indexE defaults.qubit_freq_est 0).bind fun q0_freq =>
  (indexE defaults.meas_freq_est 0).bind fun q0_meas_freq =>
  Except.ok (q0_freq * (1 / 1000000000), q0_meas_freq * (1 / 1000000000))

/-- The string printed by the configuration-summary cell, as the list of
its pieces in order: fixed literals, directly interpolated field values,
and the two conditionally selected literals
(`'' if config.n_qubits == 1 else 's'` and
`'supports' if config.open_pulse else 'does not support'`). -/
def configSummary (c : Config) : List String :=
  ["This backend is called ", c.backend_name,
   ", and is on version ", c.backend_version,
   ". It has ", toString c.n_qubits,
   " qubit", if c.n_qubits == 1 then "" else "s",
   ". It ", if c.open_pulse then "supports" else "does not support",
   " OpenPulse programs. The basis gates supported on this device are ",
   String.intercalate ", " c.basis_gates, "."]

/-- The literals the configuration-summary cell selects by its two
conditional expressions, in order of appearance. -/
def selectedLiterals (c : Config) : List String :=
  [if c.n_qubits == 1 then "" else "s",
   if c.open_pulse then "supports" else "does not support"]

/-- The backend object: per the notebook, its information is broken into
configuration, properties and defaults. -/
structure Backend where
  config : Config
  props : Properties
  defaults : Defaults

/-- Modelled from the spec: `backend.configuration()` is SDK code not
included under `src/`; per the spec it is "a thin call into a pre-existing
SDK" that reads static data.  State-passing form: the call returns the
configuration together with the backend state it leaves behind. -/
def configurationCall (b : Backend) : Config × Backend := (b.config, b)

/-- Modelled from the spec: `backend.properties()`, a thin read of the
measured characteristics (SDK code not under `src/`), in state-passing
form. -/
def propertiesCall (b : Backend) : Properties × Backend := (b.props, b)

/-- Modelled from the spec: `backend.defaults()`, a thin read of the
default settings (SDK code not under `src/`), in state-passing form. -/
def defaultsCall (b : Backend) : Defaults × Backend := (b.defaults, b)

/-- Modelled from the spec: the channel accessor `config.drive(i)` as a
thin call (SDK code not under `src/`), in state-passing form. -/
def driveCall (c : Config) (i : Nat) : Channel × Config := (c.drive i, c)

/-- Modelled from the spec: the channel accessor `config.measure(i)` as a
thin call (SDK code not under `src/`), in state-passing form. -/
def measureCall (c : Config) (i : Nat) : Channel × Config := (c.measure i, c)

/-- Modelled from the spec: the channel accessor `config.acquire(i)` as a
thin call (SDK code not under `src/`), in state-passing form. -/
def acquireCall (c : Config) (i : Nat) : Channel × Config := (c.acquire i, c)

/-- Modelled from the spec: the instruction-schedule lookup
`inst_map.get(name, qubits)` as a thin call (SDK code not under `src/`),
in state-passing form. -/
def instGetCall (m : InstructionScheduleMap) (name : String)
    (qubits : List Nat) : Option Schedule × InstructionScheduleMap :=
  (m.get name qubits, m)

/-- Modelled from the spec: the existence check `inst_map.has(name, qubits)`
as a thin call (SDK code not under `src/`), in state-passing form. -/
def instHasCall (m : InstructionScheduleMap) (name : String)
    (qubits : List Nat) : Bool × InstructionScheduleMap :=
  (m.has name qubits, m)

/-- The session-level names the notebook's cells bind and read. -/
inductive VarName
  | backend
  | config
  | props
  | describe_qubit_fn
  | defaults
  | q0_freq
  | q0_meas_freq
  | ghz
  | inst_map
  | measure_schedule
deriving DecidableEq

/-- One code cell, abstracted to the session names it reads from earlier
cells and the names it binds. -/
structure Cell where
  uses : List VarName
  binds : List VarName

/-- The notebook's code cells in document order, each with the names it
reads and binds (names bound and used inside a single cell, such as `GHz`
in the frequency cell, are intra-cell and not reads of earlier state). -/
def notebookCells : List Cell :=
  [⟨[], [VarName.backend]⟩,
   ⟨[VarName.backend], [VarName.config]⟩,
   ⟨[VarName.config], []⟩,
   ⟨[VarName.config], []⟩,
   ⟨[VarName.config], []⟩,
   ⟨[VarName.config], []⟩,
   ⟨[VarName.config], []⟩,
   ⟨[VarName.config], []⟩,
   ⟨[VarName.config], []⟩,
   ⟨[VarName.backend], [VarName.props]⟩,
   ⟨[VarName.props], [VarName.describe_qubit_fn]⟩,
   ⟨[VarName.backend], [VarName.defaults]⟩,
   ⟨[VarName.defaults], [VarName.q0_freq, VarName.q0_meas_freq, VarName.ghz]⟩,
   ⟨[VarName.defaults], [VarName.inst_map]⟩,
   ⟨[VarName.inst_map, VarName.config], [VarName.measure_schedule]⟩,
   ⟨[VarName.inst_map], []⟩,
   ⟨[VarName.inst_map], []⟩,
   ⟨[], []⟩]

/-- Straight-line execution of the cells: each cell may read only names
already in the environment, and afterwards its bindings are added.  Holds
exactly when no name is used before the cell that binds it has run. -/
def wellScoped : List Cell → List VarName → Bool
  | [], _ => true
  | c :: cs, env =>
    c.uses.all (fun v => env.contains v) && wellScoped cs (env ++ c.binds)

/-- The qubit-list argument of the measurement-schedule lookup,
`[q for q in range(config.n_qubits)]`. -/
def measureScheduleQubits (config : Config) : List Nat :=
  List.range config.n_qubits

/-- The measurement-schedule cell:
`inst_map.get('measure', [q for q in range(config.n_qubits)])`. -/
def measureScheduleCell (config : Config)
    (inst_map : InstructionScheduleMap) : Option Schedule :=
  inst_map.get "measure" (measureScheduleQubits config)

/-- A concrete configuration in the shape of the mocked backend. -/
def cfgA : Config :=
  ⟨"fake_almaden", "1.0.0", 20, true, ["id", "u1", "u2", "u3", "cx"],
   1 / oneBillion, 1 / oneBillion, [0, 1, 2], [[0, 1]]⟩
where oneBillion : ℚ := 1000000000

/-- `cfgA` with only `open_pulse` flipped: every directly interpolated
field is unchanged. -/
def cfgB : Config := { cfgA with open_pulse := false }

/-- `cfgA` with a different backend name but the same `n_qubits` and
`open_pulse` flags. -/
def cfgC : Config := { cfgA with backend_name := "fake_other" }

/-- A concrete properties object with distinct raw values. -/
def props0 : Properties :=
  ⟨fun _ => 1, fun _ => 2, fun _ _ => 3 / 100, fun _ _ => 7 / 100, fun _ => 5⟩

/-- A concrete empty instruction-schedule map. -/
def instMap0 : InstructionScheduleMap := ⟨[]⟩

/-- A concrete defaults object with one frequency estimate per list. -/
def defaults0 : Defaults := ⟨[5], [7], instMap0⟩

/-- C1 (counterexample): the claim that every presented value equals the
raw value of the corresponding accessor fails: at qubit 0 of `props0` the
notebook presents a T1 value of `props0.t1 0 * 1e6`, not `props0.t1 0`. -/
theorem describe_qubit_not_raw_counterexample :
    (describe_qubit 0 props0).1.t1_us ≠ props0.t1 0 := by
  norm_num [describe_qubit, props0]

/-- C1 (amended): every value the notebook presents equals the raw value
returned by the corresponding external accessor, either verbatim (the
configuration fields, the gate error) or multiplied by a fixed
unit-conversion constant (`1e6`, `1e9`, `1e-9`); no other transformation,
validation or orchestration is applied. -/
theorem presented_values_scaled (q : Nat) (p : Properties) (d : Defaults)
    (a b : ℚ) (h1 : d.qubit_freq_est.get? 0 = some a)
    (h2 : d.meas_freq_est.get? 0 = some b) :
    (describe_qubit q p).1.t1_us = p.t1 q * 1000000 ∧
    (describe_qubit q p).1.t2_us = p.t2 q * 1000000 ∧
    (describe_qubit q p).1.u2_gate_error = p.gate_error "u2" q ∧
    (describe_qubit q p).1.u2_gate_duration_ns =
      p.gate_length "u2" q * 1000000000 ∧
    (describe_qubit q p).1.resonant_frequency_GHz =
      p.frequency q * (1 / 1000000000) ∧
    freqCellE d = Except.ok (a * (1 / 1000000000), b * (1 / 1000000000)) ∧
    ∀ c : Config, c.backend_name ∈ configSummary c := by
  rw [List.get?_eq_getElem?] at h1 h2
  refine ⟨rfl, rfl, rfl, rfl, rfl, ?_, ?_⟩
  · simp [freqCellE, indexE, h1, h2, Except.bind]
  · intro c
    simp [configSummary]

/-- C1 (witness for the amended theorem). -/
theorem presented_values_scaled_witness :
    defaults0.qubit_freq_est.get? 0 = some 5 ∧
    defaults0.meas_freq_est.get? 0 = some 7 ∧
    freqCellE defaults0 =
      Except.ok (5 * (1 / 1000000000), 7 * (1 / 1000000000)) :=
  ⟨rfl, rfl, (presented_values_scaled 0 props0 defaults0 5 7 rfl rfl).2.2.2.2.2.1⟩

/-- C2 (counterexample): the configuration summary is not value-independent
in form: `cfgA` and `cfgB` agree on every directly interpolated field
(name, version, qubit count, basis gates) yet produce different summaries,
because the cell's conditional expressions select different fixed literals
depending on `config.open_pulse`. -/
theorem config_summary_value_dependent :
    cfgA.backend_name = cfgB.backend_name ∧
    cfgA.backend_version = cfgB.backend_version ∧
    cfgA.n_qubits = cfgB.n_qubits ∧
    cfgA.basis_gates = cfgB.basis_gates ∧
    selectedLiterals cfgA ≠ selectedLiterals cfgB ∧
    configSummary cfgA ≠ configSummary cfgB := by
  refine ⟨rfl, rfl, rfl, rfl, ?_, ?_⟩ <;> decide

/-- C2 (amended): the notebook's only value-dependent branching is the two
conditional expressions of the configuration-summary cell, which select
between fixed string literals according to whether `config.n_qubits` equals
1 and whether `config.open_pulse` holds: the selected literals depend on
nothing else, and the other cited cell, `describe_qubit`, performs a fixed
straight-line sequence of external calls whose shape is independent of the
values the backend returns. -/
theorem notebook_branching (c c' : Config) (q : Nat) (p p' : Properties)
    (hq : (c.n_qubits == 1) = (c'.n_qubits == 1))
    (hp : c.open_pulse = c'.open_pulse) :
    selectedLiterals c = selectedLiterals c' ∧
    (describe_qubit q p).2 = (describe_qubit q p').2 := by
  constructor
  · simp only [selectedLiterals, hq, hp]
  · rfl

/-- C2 (witness for the amended theorem): two configurations differing in
their backend name but agreeing on the two conditions select the same
literals. -/
theorem notebook_branching_witness :
    ((cfgA.n_qubits == 1) = (cfgC.n_qubits == 1)) ∧
    cfgA.open_pulse = cfgC.open_pulse ∧
    selectedLiterals cfgA = selectedLiterals cfgC :=
  ⟨rfl, rfl, (notebook_branching cfgA cfgC 0 props0 props0 rfl rfl).1⟩

/-- C3: no cell authors error handling: a cell returns `Except.error e`
exactly when the first failing external call of the cell fails with `e`;
the error is neither caught, suppressed nor transformed.  Stated for both
cited cells: `describe_qubit` over fallible accessors, and the
frequency cell whose external calls are the two list indexings. -/
theorem cells_propagate_errors (qubit : Nat) (p : PropertiesE)
    (d : Defaults) (e : Err) :
    (describe_qubitE qubit p = Except.error e ↔
      firstError [p.t1 qubit, p.t2 qubit, p.gate_error "u2" qubit,
                  p.gate_length "u2" qubit, p.frequency qubit] = some e) ∧
    (freqCellE d = Except.error e ↔
      firstError [indexE d.qubit_freq_est 0,
                  indexE d.meas_freq_est 0] = some e) := by
  constructor
  · cases h1 : p.t1 qubit with
    | error e1 => simp [describe_qubitE, h1, firstError, Except.bind]
    | ok v1 =>
      cases h2 : p.t2 qubit with
      | error e2 => simp [describe_qubitE, h1, h2, firstError, Except.bind]
      | ok v2 =>
        cases h3 : p.gate_error "u2" qubit with
        | error e3 =>
          simp [describe_qubitE, h1, h2, h3, firstError, Except.bind]
        | ok v3 =>
          cases h4 : p.gate_length "u2" qubit with
          | error e4 =>
            simp [describe_qubitE, h1, h2, h3, h4, firstError, Except.bind]
          | ok v4 =>
            cases h5 : p.frequency qubit with
            | error e5 =>
              simp [describe_qubitE, h1, h2, h3, h4, h5, firstError,
                    Except.bind]
            | ok v5 =>
              simp [describe_qubitE, h1, h2, h3, h4, h5, firstError,
                    Except.bind]
  · cases h1 : indexE d.qubit_freq_est 0 with
    | error e1 => simp [freqCellE, h1, firstError, Except.bind]
    | ok v1 =>
      cases h2 : indexE d.meas_freq_est 0 with
      | error e2 => simp [freqCellE, h1, h2, firstError, Except.bind]
      | ok v2 => simp [freqCellE, h1, h2, firstError, Except.bind]

/-- C4: `describe_qubit(qubit, properties)` queries exactly T1, T2, the
u2 gate error, the u2 gate duration and the resonant frequency of that
qubit — nothing else — and each queried value is included in the printed
description (recoverable from the corresponding printed field by undoing
the fixed unit factor). -/
theorem describe_qubit_queries_exact (qubit : Nat) (properties : Properties) :
    (describe_qubit qubit properties).2 =
      [PropQuery.t1 qubit, PropQuery.t2 qubit,
       PropQuery.gate_error "u2" qubit,
       PropQuery.gate_length "u2" qubit,
       PropQuery.frequency qubit] ∧
    properties.t1 qubit = (describe_qubit qubit properties).1.t1_us / 1000000 ∧
    properties.t2 qubit = (describe_qubit qubit properties).1.t2_us / 1000000 ∧
    properties.gate_error "u2" qubit =
      (describe_qubit qubit properties).1.u2_gate_error ∧
    properties.gate_length "u2" qubit =
      (describe_qubit qubit properties).1.u2_gate_duration_ns / 1000000000 ∧
    properties.frequency qubit =
      (describe_qubit qubit properties).1.resonant_frequency_GHz /
        (1 / 1000000000) := by
  refine ⟨rfl, ?_, ?_, rfl, ?_, ?_⟩ <;>
    · simp only [describe_qubit]
      ring

/-- C5: the instruction-schedule mapping satisfies the lookup-after-insert
round trip: after `add(name, qubits, schedule)`, `has(name, qubits)` holds
and `get(name, qubits)` returns that schedule. -/
theorem instruction_schedule_map_add_get (m : InstructionScheduleMap)
    (name : String) (qubits : List Nat) (schedule : Schedule) :
    (m.add name qubits schedule).has name qubits = true ∧
    (m.add name qubits schedule).get name qubits = some schedule := by
  constructor <;>
    simp [InstructionScheduleMap.add, InstructionScheduleMap.has,
          InstructionScheduleMap.get, List.find?]

/-- C6: the notebook is a straight-line sequence of cells in which every
name is bound by a strictly earlier cell than any cell that reads it: the
scoping invariant holds of the step relation over the actual cell list. -/
theorem notebook_sequential_well_scoped :
    wellScoped notebookCells [] = true := by decide

/-- C7: every backend access shown is a thin read-only call: in
state-passing form, `backend.configuration()`, `backend.properties()`,
`backend.defaults()`, the channel accessors and the instruction-schedule
lookups leave their receiver unchanged, and calling any of them twice in
succession yields equal results. -/
theorem backend_accessors_read_only (b : Backend) (c : Config) (i : Nat)
    (m : InstructionScheduleMap) (name : String) (qubits : List Nat) :
    (configurationCall b).2 = b ∧
    (configurationCall ((configurationCall b).2)).1 =
      (configurationCall b).1 ∧
    (propertiesCall b).2 = b ∧
    (propertiesCall ((propertiesCall b).2)).1 = (propertiesCall b).1 ∧
    (defaultsCall b).2 = b ∧
    (defaultsCall ((defaultsCall b).2)).1 = (defaultsCall b).1 ∧
    (driveCall c i).2 = c ∧
    (driveCall ((driveCall c i).2) i).1 = (driveCall c i).1 ∧
    (measureCall c i).2 = c ∧
    (measureCall ((measureCall c i).2) i).1 = (measureCall c i).1 ∧
    (acquireCall c i).2 = c ∧
    (acquireCall ((acquireCall c i).2) i).1 = (acquireCall c i).1 ∧
    (instGetCall m name qubits).2 = m ∧
    (instGetCall ((instGetCall m name qubits).2) name qubits).1 =
      (instGetCall m name qubits).1 ∧
    (instHasCall m name qubits).2 = m ∧
    (instHasCall ((instHasCall m name qubits).2) name qubits).1 =
      (instHasCall m name qubits).1 :=
  ⟨rfl, rfl, rfl, rfl, rfl, rfl, rfl, rfl, rfl, rfl, rfl, rfl, rfl, rfl,
   rfl, rfl⟩

/-- C8: `describe_qubit` applies exactly the fixed unit conversions: the
printed T1 and T2 are the raw values times `1e6`, the printed gate
duration is the raw value times `1e9`, the printed resonant frequency is
the raw value times `1e-9`, and the gate error is printed unscaled. -/
theorem describe_qubit_unit_conversions (qubit : Nat)
    (properties : Properties) :
    (describe_qubit qubit properties).1.t1_us =
      properties.t1 qubit * 1000000 ∧
    (describe_qubit qubit properties).1.t2_us =
      properties.t2 qubit * 1000000 ∧
    (describe_qubit qubit properties).1.u2_gate_error =
      properties.gate_error "u2" qubit ∧
    (describe_qubit qubit properties).1.u2_gate_duration_ns =
      properties.gate_length "u2" qubit * 1000000000 ∧
    (describe_qubit qubit properties).1.resonant_frequency_GHz =
      properties.frequency qubit * (1 / 1000000000) :=
  ⟨rfl, rfl, rfl, rfl, rfl⟩

/-- C9: the unguarded indexing of `defaults.qubit_freq_est[0]` and
`defaults.meas_freq_est[0]` succeeds exactly when both lists are
nonempty, i.e. when the backend reports at least one entry in each. -/
theorem freq_cell_safe_iff_nonempty (d : Defaults) :
    (∃ v, freqCellE d = Except.ok v) ↔
      (d.qubit_freq_est ≠ [] ∧ d.meas_freq_est ≠ []) := by
  cases hq : d.qubit_freq_est with
  | nil => simp [freqCellE, indexE, hq, Except.bind]
  | cons x xs =>
    cases hm : d.meas_freq_est with
    | nil => simp [freqCellE, indexE, hq, hm, Except.bind]
    | cons y ys => simp [freqCellE, indexE, hq, hm, Except.bind]

/-- C10: the measurement-schedule lookup is over every qubit of the
backend: the cell calls `inst_map.get('measure', ·)` on exactly the list
`[0, 1, ..., config.n_qubits - 1]`. -/
theorem measure_lookup_all_qubits (c : Config)
    (m : InstructionScheduleMap) :
    measureScheduleCell c m = m.get "measure" (measureScheduleQubits c) ∧
    (measureScheduleQubits c).length = c.n_qubits ∧
    ∀ i, i < c.n_qubits → (measureScheduleQubits c).get? i = some i := by
  refine ⟨rfl, List.length_range _, ?_⟩
  intro i hi
  simp [measureScheduleQubits, List.get?_eq_getElem?, List.getElem?_range hi]

/-- C10 (witness): on the 20-qubit configuration, qubit 2 is present at
position 2 of the lookup's qubit list. -/
theorem measure_lookup_all_qubits_witness :
    2 < cfgA.n_qubits ∧ (measureScheduleQubits cfgA).get? 2 = some 2 :=
  ⟨by decide, (measure_lookup_all_qubits cfgA instMap0).2.2 2 (by decide)⟩
